import Mathlib

/-!
Shallow embedding of the products request handler
(src/products/app.ts and its observability-instrumented twin).

The handler dispatches an API-Gateway-style event on its HTTP method to one
of five operation handlers (PUT upsert, POST create, GET list / get-by-id,
DELETE), each talking to a DynamoDB-backed record store, and finalizes every
response with two fixed headers.

Modelling choices, all taken from the source:
* The store (DynamoDB DocumentClient) is an association list from the key
  attribute `PK` to the remaining attributes, threaded through every handler
  as explicit state.  Each store call can fault: the state carries a schedule
  of fault directives (`none` = the call succeeds, `some m` = the call throws
  an error whose `message` is `m`), consumed one per issued call, and a trace
  of the calls issued, so that statements such as "no store call is made"
  are expressible.  A call whose key attribute is `undefined` is rejected by the
  client before any request is sent (DocumentClient validation error).
* JavaScript exceptions become `Except String` (the string is `err.message`);
  the per-handler `try/catch` is the outer `match` converting an `error`
  into the structured 500 response.
* `JSON.parse(input.body || '') || {}` is abstracted by the exhaustive
  outcome of the parse: it throws (malformed input, including the empty
  string), or yields a falsy value (`null`, `false`, `0`, `""`, which
  `|| {}` turns into the empty object), or yields an object read as a
  Product.
* `uuidv4()` is nondeterministic, so the generated id is a parameter of the
  handler.
* Response bodies are `JSON.stringify` outputs of fixed shapes; they are
  modelled structurally (message object, error object, record, record list)
  rather than as serialized strings.  Template-literal interpolation of a
  possibly-`undefined` id renders `undefined`, as in JavaScript.
* `price` is the untyped JSON numeric field; it is modelled as `Int`, which
  is irrelevant to every claim (no arithmetic is performed on it).
-/

namespace Products

/-- Non-key attributes of a stored record (`name`/`price`, both optional). -/
structure Attrs where
  name : Option String
  price : Option Int
deriving DecidableEq, Repr

/-- A store call as issued by a handler, for the call trace. -/
inductive StoreCall where
  | get (key : Option String)
  | put (key : Option String)
  | delete (key : Option String)
  | scan
deriving DecidableEq, Repr

/-- State of the record-store collaborator: the table contents keyed by `PK`,
the schedule of fault directives for upcoming calls, and the trace of calls
issued so far. -/
structure DB where
  items : List (String × Attrs)
  faults : List (Option String)
  calls : List StoreCall
deriving DecidableEq, Repr

/-- The Product entity: `id`, `name`, `price`, each possibly absent
(the fields of the duck-typed JSON body). -/
structure Product where
  id : Option String
  name : Option String
  price : Option Int
deriving DecidableEq, Repr

/-- Exhaustive outcome of `JSON.parse(input.body || '')`: it throws with a
message, or returns a falsy value, or returns an object read as a Product. -/
inductive ParseOutcome where
  | fail (msg : String)
  | falsy
  | obj (p : Product)
deriving DecidableEq, Repr

/-- The `pathParameters` object of the event (only the `id` key is read). -/
structure PathParams where
  id : Option String
deriving DecidableEq, Repr

/-- The inbound event: HTTP method, the `pathParameters` object (absent when
the route carries no path parameters), and the parse outcome of the body. -/
structure Event where
  httpMethod : String
  pathParameters : Option PathParams
  bodyParse : ParseOutcome
deriving DecidableEq, Repr

/-- A response body, as the shape handed to `JSON.stringify`:
a one-field message object, a one-field error object, a raw stored record,
or an array of raw stored records. -/
inductive RBody where
  | msg (m : String)
  | err (e : String)
  | record (key : String) (a : Attrs)
  | items (l : List (String × Attrs))
deriving DecidableEq, Repr

/-- The outbound response: status code, body, and the headers object
(absent until response finalization sets it). -/
structure Response where
  statusCode : Nat
  body : RBody
  headers : Option (List (String × String))
deriving DecidableEq, Repr

/-- Pop the next fault directive from the schedule (an exhausted schedule
means every remaining call succeeds). -/
def takeFault (db : DB) : Option String × DB :=
  match db.faults with
  | [] => (none, db)
  | f :: fs => (f, { db with faults := fs })

/-- Append a call to the trace. -/
def recordCall (c : StoreCall) (db : DB) : DB :=
  { db with calls := db.calls ++ [c] }

/-- Point lookup in the table. -/
def lookupItem (key : String) : List (String × Attrs) → Option Attrs
  | [] => none
  | (k, a) :: rest => if k = key then some a else lookupItem key rest

/-- Full-replace upsert in the table. -/
def putItem (key : String) (a : Attrs) : List (String × Attrs) → List (String × Attrs)
  | [] => [(key, a)]
  | (k, b) :: rest => if k = key then (key, a) :: rest else (k, b) :: putItem key a rest

/-- Point delete in the table. -/
def removeItem (key : String) : List (String × Attrs) → List (String × Attrs)
  | [] => []
  | (k, b) :: rest => if k = key then rest else (k, b) :: removeItem key rest

/-- The DocumentClient validation message for an `undefined` key attribute,
raised before any request is sent. -/
def keyMissingMsg : String := "One of the required keys was not given a value"

/-- `dbClient.get({Key: {PK: key}})`: validation of the key, then the call is
issued (traced, fault directive consumed); on success the raw stored record,
key attribute included, or `none` when absent. -/
def dbGet (key : Option String) (db : DB) : Except String (Option (String × Attrs)) × DB :=
  match key with
  | none => (.error keyMissingMsg, db)
  | some k =>
    let db := recordCall (StoreCall.get (some k)) db
    match takeFault db with
    | (some m, db) => (.error m, db)
    | (none, db) => (.ok ((lookupItem k db.items).map (fun a => (k, a))), db)

/-- `dbClient.put({Item: {PK: key, ...attrs}})`: validation of the key, then
the call is issued; on success the table is updated by full replace. -/
def dbPut (key : Option String) (a : Attrs) (db : DB) : Except String Unit × DB :=
  match key with
  | none => (.error keyMissingMsg, db)
  | some k =>
    let db := recordCall (StoreCall.put (some k)) db
    match takeFault db with
    | (some m, db) => (.error m, db)
    | (none, db) => (.ok (), { db with items := putItem k a db.items })

/-- `dbClient.delete({Key: {PK: key}})`: validation of the key, then the call
is issued; on success the record is removed. -/
def dbDelete (key : Option String) (db : DB) : Except String Unit × DB :=
  match key with
  | none => (.error keyMissingMsg, db)
  | some k =>
    let db := recordCall (StoreCall.delete (some k)) db
    match takeFault db with
    | (some m, db) => (.error m, db)
    | (none, db) => (.ok (), { db with items := removeItem k db.items })

/-- `dbClient.scan({Limit: 20})`: the call is issued; on success the first 20
records of the table in store-native order. -/
def dbScan (db : DB) : Except String (List (String × Attrs)) × DB :=
  let db := recordCall StoreCall.scan db
  match takeFault db with
  | (some m, db) => (.error m, db)
  | (none, db) => (.ok (db.items.take 20), db)

/-- `JSON.parse(input.body || '') || {}` read at type Product: a throwing
parse propagates the exception; a falsy parse result defaults to the empty
object; an object parse is the product as given. -/
def decodeBody : ParseOutcome → Except String Product
  | .fail m => .error m
  | .falsy => .ok { id := none, name := none, price := none }
  | .obj p => .ok p

/-- `input.pathParameters?.id`. -/
def pathId (e : Event) : Option String :=
  e.pathParameters.bind PathParams.id

/-- Template-literal interpolation of a possibly-`undefined` string. -/
def interp : Option String → String
  | none => "undefined"
  | some s => s

/-- Body of `processPutEvent` inside its `try`: decode the body, reject an
id mismatch with 400, otherwise upsert and answer 201. -/
def processPutEventE (input : Event) (db : DB) : Except String Response × DB :=
  match decodeBody input.bodyParse with
  | .error m => (.error m, db)
  | .ok product =>
    if product.id ≠ pathId input then
      (.ok { statusCode := 400,
             body := .err "Product ID in the body does not match path parameter",
             headers := none }, db)
    else
      match dbPut product.id { name := product.name, price := product.price } db with
      | (.error m, db) => (.error m, db)
      | (.ok _, db) =>
        (.ok { statusCode := 201,
               body := .msg ("Product with id = " ++ interp (pathId input) ++ " edited(created)"),
               headers := none }, db)

/-- `processPutEvent`: the `try/catch` boundary around `processPutEventE`. -/
def processPutEvent (input : Event) (db : DB) : Response × DB :=
  match processPutEventE input db with
  | (.ok r, db) => (r, db)
  | (.error m, db) =>
    ({ statusCode := 500,
       body := .err ("Internal Server Error for Put :: " ++ m),
       headers := none }, db)

/-- Body of `processPostEvent` inside its `try`: decode the body, write a new
record under the freshly generated id `genId`, answer 201. -/
def processPostEventE (genId : String) (input : Event) (db : DB) :
    Except String Response × DB :=
  match decodeBody input.bodyParse with
  | .error m => (.error m, db)
  | .ok product =>
    match dbPut (some genId) { name := product.name, price := product.price } db with
    | (.error m, db) => (.error m, db)
    | (.ok _, db) =>
      (.ok { statusCode := 201,
             body := .msg ("Product with id = " ++ genId ++ " created"),
             headers := none }, db)

/-- `processPostEvent`: the `try/catch` boundary around `processPostEventE`. -/
def processPostEvent (genId : String) (input : Event) (db : DB) : Response × DB :=
  match processPostEventE genId input db with
  | (.ok r, db) => (r, db)
  | (.error m, db) =>
    ({ statusCode := 500,
       body := .err ("Internal Server Error for Post :: " ++ m),
       headers := none }, db)

/-- Body of `processGetAllEvent` inside its `try`: scan with limit 20 and
answer 200 with the raw records. -/
def processGetAllEventE (db : DB) : Except String Response × DB :=
  match dbScan db with
  | (.error m, db) => (.error m, db)
  | (.ok its, db) =>
    (.ok { statusCode := 200, body := .items its, headers := none }, db)

/-- `processGetAllEvent`: the `try/catch` boundary around
`processGetAllEventE`. -/
def processGetAllEvent (db : DB) : Response × DB :=
  match processGetAllEventE db with
  | (.ok r, db) => (r, db)
  | (.error m, db) =>
    ({ statusCode := 500,
       body := .err ("Internal Server Error for GetAll :: " ++ m),
       headers := none }, db)

/-- Body of `processGetByIdEvent` inside its `try`: the `ForceError` sentinel
throws `Error('BOOM')` before any store access; otherwise a point lookup
answers 200 with the raw record or 404. -/
def processGetByIdEventE (input : Event) (db : DB) : Except String Response × DB :=
  if pathId input = some "ForceError" then
    (.error "BOOM", db)
  else
    match dbGet (pathId input) db with
    | (.error m, db) => (.error m, db)
    | (.ok (some item), db) =>
      (.ok { statusCode := 200, body := .record item.1 item.2, headers := none }, db)
    | (.ok none, db) =>
      (.ok { statusCode := 404,
             body := .err ("Product with id = " ++ interp (pathId input) ++ " NOT found"),
             headers := none }, db)

/-- `processGetByIdEvent`: the `try/catch` boundary around
`processGetByIdEventE`. -/
def processGetByIdEvent (input : Event) (db : DB) : Response × DB :=
  match processGetByIdEventE input db with
  | (.ok r, db) => (r, db)
  | (.error m, db) =>
    ({ statusCode := 500,
       body := .err ("Internal Server Error for GetById :: " ++ m),
       headers := none }, db)

/-- Body of `processDeleteEvent` inside its `try`: look the id up first, issue
the delete only when a record was found (200), otherwise answer 404 with the
(copy-pasted) "was deleted" text. -/
def processDeleteEventE (input : Event) (db : DB) : Except String Response × DB :=
  match dbGet (pathId input) db with
  | (.error m, db) => (.error m, db)
  | (.ok (some _), db) =>
    match dbDelete (pathId input) db with
    | (.error m, db) => (.error m, db)
    | (.ok _, db) =>
      (.ok { statusCode := 200,
             body := .msg ("Product with id = " ++ interp (pathId input) ++ " was deleted"),
             headers := none }, db)
  | (.ok none, db) =>
    (.ok { statusCode := 404,
           body := .err ("Product with id = " ++ interp (pathId input) ++ " was deleted"),
           headers := none }, db)

/-- `processDeleteEvent`: the `try/catch` boundary around
`processDeleteEventE`. -/
def processDeleteEvent (input : Event) (db : DB) : Response × DB :=
  match processDeleteEventE input db with
  | (.ok r, db) => (r, db)
  | (.error m, db) =>
    ({ statusCode := 500,
       body := .err ("Internal Server Error for Delete :: " ++ m),
       headers := none }, db)

/-- `addResponseHeaders`: unconditionally overwrite the headers object with
the two fixed headers. -/
def addResponseHeaders (response : Response) : Response :=
  { response with
    headers := some [("Content-Type", "application/json"),
                     ("X-Custom-Header", "application/json")] }

/-- Finalization of a handler result: `addResponseHeaders` on the response,
the store state passed through. -/
def finalize (p : Response × DB) : Response × DB :=
  (addResponseHeaders p.1, p.2)

/-- The exported `handler` of src/products/app.ts: route on the method (PUT,
POST, GET split on the presence of the `pathParameters` object, DELETE),
fall through to the generic 500, and finalize every response. -/
def handler (genId : String) (event : Event) (db : DB) : Response × DB :=
  if event.httpMethod = "PUT" then
    finalize (processPutEvent event db)
  else if event.httpMethod = "POST" then
    finalize (processPostEvent genId event db)
  else if event.httpMethod = "GET" then
    match event.pathParameters with
    | none => finalize (processGetAllEvent db)
    | some _ => finalize (processGetByIdEvent event db)
  else if event.httpMethod = "DELETE" then
    finalize (processDeleteEvent event db)
  else
    finalize ({ statusCode := 500, body := .msg "some error happened",
                headers := none }, db)

/-- Modelled from the spec: the observability collaborator (Powertools
logger/metrics/tracer and the middy middleware chain `injectLambdaContext`,
`logMetrics`, `captureLambdaHandler`) performs fire-and-forget logging,
metrics and tracing only; per the spec these side-channel effects "must
never alter control flow or response content", so wrapping a handler in the
middleware chain is the identity on its request-response behaviour. -/
def middyUse (f : String → Event → DB → Response × DB) :
    String → Event → DB → Response × DB := f

namespace Instrumented

/-- Instrumented `processPutEvent` `try` body (src/unnamed/part_001). -/
def processPutEventE (input : Event) (db : DB) : Except String Response × DB :=
  match decodeBody input.bodyParse with
  | .error m => (.error m, db)
  | .ok product =>
    if product.id ≠ pathId input then
      (.ok { statusCode := 400,
             body := .err "Product ID in the body does not match path parameter",
             headers := none }, db)
    else
      match dbPut product.id { name := product.name, price := product.price } db with
      | (.error m, db) => (.error m, db)
      | (.ok _, db) =>
        (.ok { statusCode := 201,
               body := .msg ("Product with id = " ++ interp (pathId input) ++ " edited(created)"),
               headers := none }, db)

/-- Instrumented `processPutEvent` (src/unnamed/part_001). -/
def processPutEvent (input : Event) (db : DB) : Response × DB :=
  match processPutEventE input db with
  | (.ok r, db) => (r, db)
  | (.error m, db) =>
    ({ statusCode := 500,
       body := .err ("Internal Server Error for Put :: " ++ m),
       headers := none }, db)

/-- Instrumented `processPostEvent` `try` body (src/unnamed/part_001). -/
def processPostEventE (genId : String) (input : Event) (db : DB) :
    Except String Response × DB :=
  match decodeBody input.bodyParse with
  | .error m => (.error m, db)
  | .ok product =>
    match dbPut (some genId) { name := product.name, price := product.price } db with
    | (.error m, db) => (.error m, db)
    | (.ok _, db) =>
      (.ok { statusCode := 201,
             body := .msg ("Product with id = " ++ genId ++ " created"),
             headers := none }, db)

/-- Instrumented `processPostEvent` (src/unnamed/part_001). -/
def processPostEvent (genId : String) (input : Event) (db : DB) : Response × DB :=
  match processPostEventE genId input db with
  | (.ok r, db) => (r, db)
  | (.error m, db) =>
    ({ statusCode := 500,
       body := .err ("Internal Server Error for Post :: " ++ m),
       headers := none }, db)

/-- Instrumented `processGetAllEvent` `try` body (src/unnamed/part_001); the
`metrics.addMetric('getAllCount', ...)` call is a side-channel metric with no
effect on the response. -/
def processGetAllEventE (db : DB) : Except String Response × DB :=
  match dbScan db with
  | (.error m, db) => (.error m, db)
  | (.ok its, db) =>
    (.ok { statusCode := 200, body := .items its, headers := none }, db)

/-- Instrumented `processGetAllEvent` (src/unnamed/part_001). -/
def processGetAllEvent (db : DB) : Response × DB :=
  match processGetAllEventE db with
  | (.ok r, db) => (r, db)
  | (.error m, db) =>
    ({ statusCode := 500,
       body := .err ("Internal Server Error for GetAll :: " ++ m),
       headers := none }, db)

/-- Instrumented `processGetByIdEvent` `try` body (src/unnamed/part_001). -/
def processGetByIdEventE (input : Event) (db : DB) : Except String Response × DB :=
  if pathId input = some "ForceError" then
    (.error "BOOM", db)
  else
    match dbGet (pathId input) db with
    | (.error m, db) => (.error m, db)
    | (.ok (some item), db) =>
      (.ok { statusCode := 200, body := .record item.1 item.2, headers := none }, db)
    | (.ok none, db) =>
      (.ok { statusCode := 404,
             body := .err ("Product with id = " ++ interp (pathId input) ++ " NOT found"),
             headers := none }, db)

/-- Instrumented `processGetByIdEvent` (src/unnamed/part_001). -/
def processGetByIdEvent (input : Event) (db : DB) : Response × DB :=
  match processGetByIdEventE input db with
  | (.ok r, db) => (r, db)
  | (.error m, db) =>
    ({ statusCode := 500,
       body := .err ("Internal Server Error for GetById :: " ++ m),
       headers := none }, db)

/-- Instrumented `processDeleteEvent` `try` body (src/unnamed/part_001). -/
def processDeleteEventE (input : Event) (db : DB) : Except String Response × DB :=
  match dbGet (pathId input) db with
  | (.error m, db) => (.error m, db)
  | (.ok (some _), db) =>
    match dbDelete (pathId input) db with
    | (.error m, db) => (.error m, db)
    | (.ok _, db) =>
      (.ok { statusCode := 200,
             body := .msg ("Product with id = " ++ interp (pathId input) ++ " was deleted"),
             headers := none }, db)
  | (.ok none, db) =>
    (.ok { statusCode := 404,
           body := .err ("Product with id = " ++ interp (pathId input) ++ " was deleted"),
           headers := none }, db)

/-- Instrumented `processDeleteEvent` (src/unnamed/part_001). -/
def processDeleteEvent (input : Event) (db : DB) : Response × DB :=
  match processDeleteEventE input db with
  | (.ok r, db) => (r, db)
  | (.error m, db) =>
    ({ statusCode := 500,
       body := .err ("Internal Server Error for Delete :: " ++ m),
       headers := none }, db)

/-- Instrumented `addResponseHeaders` (src/unnamed/part_001). -/
def addResponseHeaders (response : Response) : Response :=
  { response with
    headers := some [("Content-Type", "application/json"),
                     ("X-Custom-Header", "application/json")] }

/-- Finalization of a handler result in the instrumented variant. -/
def finalize (p : Response × DB) : Response × DB :=
  (addResponseHeaders p.1, p.2)

/-- The inner async function passed to `middy(...)` in src/unnamed/part_001:
same routing as the plain handler. -/
def core (genId : String) (event : Event) (db : DB) : Response × DB :=
  if event.httpMethod = "PUT" then
    finalize (processPutEvent event db)
  else if event.httpMethod = "POST" then
    finalize (processPostEvent genId event db)
  else if event.httpMethod = "GET" then
    match event.pathParameters with
    | none => finalize (processGetAllEvent db)
    | some _ => finalize (processGetByIdEvent event db)
  else if event.httpMethod = "DELETE" then
    finalize (processDeleteEvent event db)
  else
    finalize ({ statusCode := 500, body := .msg "some error happened",
                headers := none }, db)

/-- The exported `handler` of src/unnamed/part_001: the core wrapped in the
middy observability middleware chain. -/
def handler : String → Event → DB → Response × DB :=
  middyUse core

end Instrumented

/-! ### Helper lemmas -/

/-- A full-replace upsert makes the written attributes the lookup result for
the written key. -/
theorem lookupItem_putItem_self (key : String) (a : Attrs) :
    ∀ l : List (String × Attrs), lookupItem key (putItem key a l) = some a := by
  intro l
  induction l with
  | nil => simp [putItem, lookupItem]
  | cons hd tl ih =>
    obtain ⟨k2, b⟩ := hd
    by_cases h : k2 = key
    · simp [putItem, h, lookupItem]
    · simp [putItem, h, lookupItem, ih]

/-- The `try` body of `processPutEvent` only returns 400 or 201 when it does
not throw. -/
theorem putE_ok_status (e : Event) (db : DB) (r : Response) (db2 : DB)
    (h : processPutEventE e db = (.ok r, db2)) :
    r.statusCode = 400 ∨ r.statusCode = 201 := by
  unfold processPutEventE at h
  repeat' split at h
  all_goals simp at h
  all_goals obtain ⟨h1, -⟩ := h
  all_goals subst h1
  all_goals simp

/-- The `try` body of `processPostEvent` only returns 201 when it does not
throw. -/
theorem postE_ok_status (g : String) (e : Event) (db : DB) (r : Response) (db2 : DB)
    (h : processPostEventE g e db = (.ok r, db2)) : r.statusCode = 201 := by
  unfold processPostEventE at h
  repeat' split at h
  all_goals simp at h
  all_goals obtain ⟨h1, -⟩ := h
  all_goals subst h1
  all_goals simp

/-- The `try` body of `processGetAllEvent` only returns 200 when it does not
throw. -/
theorem getAllE_ok_status (db : DB) (r : Response) (db2 : DB)
    (h : processGetAllEventE db = (.ok r, db2)) : r.statusCode = 200 := by
  unfold processGetAllEventE at h
  repeat' split at h
  all_goals simp at h
  all_goals obtain ⟨h1, -⟩ := h
  all_goals subst h1
  all_goals simp

/-- The `try` body of `processGetByIdEvent` only returns 200 or 404 when it
does not throw. -/
theorem getByIdE_ok_status (e : Event) (db : DB) (r : Response) (db2 : DB)
    (h : processGetByIdEventE e db = (.ok r, db2)) :
    r.statusCode = 200 ∨ r.statusCode = 404 := by
  unfold processGetByIdEventE at h
  repeat' split at h
  all_goals simp at h
  all_goals obtain ⟨h1, -⟩ := h
  all_goals subst h1
  all_goals simp

/-- The `try` body of `processDeleteEvent` only returns 200 or 404 when it
does not throw. -/
theorem deleteE_ok_status (e : Event) (db : DB) (r : Response) (db2 : DB)
    (h : processDeleteEventE e db = (.ok r, db2)) :
    r.statusCode = 200 ∨ r.statusCode = 404 := by
  unfold processDeleteEventE at h
  repeat' split at h
  all_goals simp at h
  all_goals obtain ⟨h1, -⟩ := h
  all_goals subst h1
  all_goals simp

/-- `processPutEvent` answers 201, 400 or 500. -/
theorem processPutEvent_status (e : Event) (db : DB) :
    (processPutEvent e db).1.statusCode = 201 ∨ (processPutEvent e db).1.statusCode = 400 ∨
    (processPutEvent e db).1.statusCode = 500 := by
  unfold processPutEvent
  split
  next r db2 heq =>
    rcases putE_ok_status e db r db2 heq with h | h
    · right; left; exact h
    · left; exact h
  next m db2 heq => right; right; rfl

/-- `processPostEvent` answers 201 or 500. -/
theorem processPostEvent_status (g : String) (e : Event) (db : DB) :
    (processPostEvent g e db).1.statusCode = 201 ∨
    (processPostEvent g e db).1.statusCode = 500 := by
  unfold processPostEvent
  split
  next r db2 heq => left; exact postE_ok_status g e db r db2 heq
  next m db2 heq => right; rfl

/-- `processGetAllEvent` answers 200 or 500. -/
theorem processGetAllEvent_status (db : DB) :
    (processGetAllEvent db).1.statusCode = 200 ∨
    (processGetAllEvent db).1.statusCode = 500 := by
  unfold processGetAllEvent
  split
  next r db2 heq => left; exact getAllE_ok_status db r db2 heq
  next m db2 heq => right; rfl

/-- `processGetByIdEvent` answers 200, 404 or 500. -/
theorem processGetByIdEvent_status (e : Event) (db : DB) :
    (processGetByIdEvent e db).1.statusCode = 200 ∨
    (processGetByIdEvent e db).1.statusCode = 404 ∨
    (processGetByIdEvent e db).1.statusCode = 500 := by
  unfold processGetByIdEvent
  split
  next r db2 heq =>
    rcases getByIdE_ok_status e db r db2 heq with h | h
    · left; exact h
    · right; left; exact h
  next m db2 heq => right; right; rfl

/-- `processDeleteEvent` answers 200, 404 or 500. -/
theorem processDeleteEvent_status (e : Event) (db : DB) :
    (processDeleteEvent e db).1.statusCode = 200 ∨
    (processDeleteEvent e db).1.statusCode = 404 ∨
    (processDeleteEvent e db).1.statusCode = 500 := by
  unfold processDeleteEvent
  split
  next r db2 heq =>
    rcases deleteE_ok_status e db r db2 heq with h | h
    · left; exact h
    · right; left; exact h
  next m db2 heq => right; right; rfl

/-- Finalization does not change the status code. -/
theorem finalize_statusCode (p : Response × DB) :
    (finalize p).1.statusCode = p.1.statusCode := rfl

/-! ### Claims -/

/-- C1 (amended): the dispatcher routes by this precedence: method PUT goes
to Upsert, POST to Create, GET with the `pathParameters` object absent to
ListFirstPage, GET with the `pathParameters` object present to GetById,
DELETE to Delete, and any other request yields status 500 with message
"some error happened"; for a GET request, which of ListFirstPage and GetById
runs is decided exactly by the presence of the `pathParameters` object, not
of the `id` path parameter itself. -/
theorem C1_dispatch (g : String) (e : Event) (db : DB) :
    (e.httpMethod = "PUT" → handler g e db = finalize (processPutEvent e db)) ∧
    (e.httpMethod = "POST" → handler g e db = finalize (processPostEvent g e db)) ∧
    (e.httpMethod = "GET" → e.pathParameters = none →
      handler g e db = finalize (processGetAllEvent db)) ∧
    (∀ pp, e.httpMethod = "GET" → e.pathParameters = some pp →
      handler g e db = finalize (processGetByIdEvent e db)) ∧
    (e.httpMethod = "DELETE" → handler g e db = finalize (processDeleteEvent e db)) ∧
    (e.httpMethod ≠ "PUT" → e.httpMethod ≠ "POST" → e.httpMethod ≠ "GET" →
      e.httpMethod ≠ "DELETE" →
      handler g e db =
        finalize ({ statusCode := 500, body := .msg "some error happened",
                    headers := none }, db)) := by
  refine ⟨fun h1 => ?_, fun h1 => ?_, fun h1 h2 => ?_, fun pp h1 h2 => ?_, fun h1 => ?_,
    fun h1 h2 h3 h4 => ?_⟩
  · simp [handler, h1]
  · simp [handler, h1]
  · simp [handler, h1, h2]
  · simp [handler, h1, h2]
  · simp [handler, h1]
  · simp [handler, h1, h2, h3, h4]

/-- C1 witness: each routing clause applied at a concrete request. -/
theorem C1_dispatch_witness :
    handler "g1" ⟨"PUT", some ⟨some "a"⟩, .falsy⟩ ⟨[], [], []⟩ =
      finalize (processPutEvent ⟨"PUT", some ⟨some "a"⟩, .falsy⟩ ⟨[], [], []⟩) ∧
    handler "g1" ⟨"POST", none, .falsy⟩ ⟨[], [], []⟩ =
      finalize (processPostEvent "g1" ⟨"POST", none, .falsy⟩ ⟨[], [], []⟩) ∧
    handler "g1" ⟨"GET", none, .falsy⟩ ⟨[], [], []⟩ =
      finalize (processGetAllEvent ⟨[], [], []⟩) ∧
    handler "g1" ⟨"GET", some ⟨some "a"⟩, .falsy⟩ ⟨[], [], []⟩ =
      finalize (processGetByIdEvent ⟨"GET", some ⟨some "a"⟩, .falsy⟩ ⟨[], [], []⟩) ∧
    handler "g1" ⟨"DELETE", some ⟨some "a"⟩, .falsy⟩ ⟨[], [], []⟩ =
      finalize (processDeleteEvent ⟨"DELETE", some ⟨some "a"⟩, .falsy⟩ ⟨[], [], []⟩) ∧
    handler "g1" ⟨"PATCH", none, .falsy⟩ ⟨[], [], []⟩ =
      finalize ({ statusCode := 500, body := .msg "some error happened",
                  headers := none }, ⟨[], [], []⟩) :=
  ⟨(C1_dispatch "g1" ⟨"PUT", some ⟨some "a"⟩, .falsy⟩ ⟨[], [], []⟩).1 rfl,
   (C1_dispatch "g1" ⟨"POST", none, .falsy⟩ ⟨[], [], []⟩).2.1 rfl,
   (C1_dispatch "g1" ⟨"GET", none, .falsy⟩ ⟨[], [], []⟩).2.2.1 rfl rfl,
   (C1_dispatch "g1" ⟨"GET", some ⟨some "a"⟩, .falsy⟩ ⟨[], [], []⟩).2.2.2.1
     ⟨some "a"⟩ rfl rfl,
   (C1_dispatch "g1" ⟨"DELETE", some ⟨some "a"⟩, .falsy⟩ ⟨[], [], []⟩).2.2.2.2.1 rfl,
   (C1_dispatch "g1" ⟨"PATCH", none, .falsy⟩ ⟨[], [], []⟩).2.2.2.2.2
     (by decide) (by decide) (by decide) (by decide)⟩

/-- C1 counterexample: a GET whose `pathParameters` object is present but
holds no `id` has no id path parameter, so the claim routes it to
ListFirstPage (which would answer 200 on this store); the dispatcher routes
it to GetById instead, which fails on the undefined key and answers 500. -/
theorem C1_dispatch_counterexample :
    pathId ⟨"GET", some ⟨none⟩, .falsy⟩ = none ∧
    (handler "g1" ⟨"GET", some ⟨none⟩, .falsy⟩
        ⟨[("p1", ⟨some "Widget", some 10⟩)], [], []⟩).1.statusCode = 500 ∧
    (finalize (processGetAllEvent
        ⟨[("p1", ⟨some "Widget", some 10⟩)], [], []⟩)).1.statusCode = 200 ∧
    handler "g1" ⟨"GET", some ⟨none⟩, .falsy⟩
        ⟨[("p1", ⟨some "Widget", some 10⟩)], [], []⟩ ≠
      finalize (processGetAllEvent ⟨[("p1", ⟨some "Widget", some 10⟩)], [], []⟩) := by
  decide

/-- C2: a PUT whose body decodes to a product whose id differs from the path
id answers 400 with the mismatch error body; no store call is made and the
store state is unchanged, so every follow-up request behaves exactly as
against the original store — in particular a follow-up GetById on an id
never written (and distinct from the fault-injection sentinel) still
answers 404. -/
theorem C2_put_mismatch (g : String) (e : Event) (db : DB) (p : Product)
    (hm : e.httpMethod = "PUT") (hb : decodeBody e.bodyParse = .ok p)
    (hid : p.id ≠ pathId e) :
    handler g e db =
      (addResponseHeaders
        { statusCode := 400,
          body := .err "Product ID in the body does not match path parameter",
          headers := none }, db) ∧
    (handler g e db).2 = db ∧
    (∀ g2 e2, handler g2 e2 (handler g e db).2 = handler g2 e2 db) ∧
    (∀ g2 e2 k2, e2.httpMethod = "GET" → pathId e2 = some k2 → k2 ≠ "ForceError" →
      lookupItem k2 db.items = none → db.faults = [] →
      (handler g2 e2 (handler g e db).2).1.statusCode = 404) := by
  have h1 : handler g e db =
      (addResponseHeaders
        { statusCode := 400,
          body := .err "Product ID in the body does not match path parameter",
          headers := none }, db) := by
    simp [handler, hm, processPutEvent, processPutEventE, hb, hid, finalize]
  refine ⟨h1, by rw [h1], fun g2 e2 => by rw [h1], fun g2 e2 k2 hm2 hp2 hk2 habs hf => ?_⟩
  rw [h1]
  obtain ⟨pp2, hpp2⟩ : ∃ pp2, e2.pathParameters = some pp2 := by
    cases hc : e2.pathParameters
    · rw [pathId, hc] at hp2; simp at hp2
    · exact ⟨_, rfl⟩
  simp [handler, hm2, hpp2, processGetByIdEvent, processGetByIdEventE, hp2, hk2,
    dbGet, recordCall, takeFault, hf, habs, finalize, addResponseHeaders]

/-- C2 witness: a concrete mismatching PUT answers 400 and a follow-up
GetById on the body id (never written) answers 404. -/
theorem C2_put_mismatch_witness :
    handler "g1" ⟨"PUT", some ⟨some "p1"⟩, .obj ⟨some "p2", none, none⟩⟩ ⟨[], [], []⟩ =
      (addResponseHeaders
        { statusCode := 400,
          body := .err "Product ID in the body does not match path parameter",
          headers := none }, ⟨[], [], []⟩) ∧
    (handler "g2" ⟨"GET", some ⟨some "p2"⟩, .falsy⟩
        (handler "g1" ⟨"PUT", some ⟨some "p1"⟩, .obj ⟨some "p2", none, none⟩⟩
          ⟨[], [], []⟩).2).1.statusCode = 404 :=
  ⟨(C2_put_mismatch "g1" ⟨"PUT", some ⟨some "p1"⟩, .obj ⟨some "p2", none, none⟩⟩
      ⟨[], [], []⟩ ⟨some "p2", none, none⟩ rfl rfl (by decide)).1,
   (C2_put_mismatch "g1" ⟨"PUT", some ⟨some "p1"⟩, .obj ⟨some "p2", none, none⟩⟩
      ⟨[], [], []⟩ ⟨some "p2", none, none⟩ rfl rfl (by decide)).2.2.2
     "g2" ⟨"GET", some ⟨some "p2"⟩, .falsy⟩ "p2" rfl rfl (by decide) rfl rfl⟩

/-- C5: a GET whose id path parameter is the literal "ForceError" makes
GetById throw Error("BOOM") before any store access: for every store state
the response is 500 with body error "Internal Server Error for GetById ::
BOOM", and the store (contents, fault schedule, call trace) is untouched. -/
theorem C5_force_error (g : String) (e : Event) (db : DB)
    (hm : e.httpMethod = "GET") (hp : pathId e = some "ForceError") :
    (handler g e db).1 =
      addResponseHeaders
        { statusCode := 500,
          body := .err "Internal Server Error for GetById :: BOOM",
          headers := none } ∧
    (handler g e db).2 = db := by
  obtain ⟨pp, hpp⟩ : ∃ pp, e.pathParameters = some pp := by
    cases hc : e.pathParameters
    · rw [pathId, hc] at hp; simp at hp
    · exact ⟨_, rfl⟩
  constructor <;>
    simp [handler, hm, hpp, processGetByIdEvent, processGetByIdEventE, hp, finalize]

/-- C3 counterexample: a PUT (and a POST) whose raw body fails to parse as
JSON does not continue to the id-mismatch check or the store write: the
parse exception is caught and the response is the status-500 fault path,
with the parse message interpolated; for the POST no store call is made. -/
theorem C3_lenient_decode_counterexample :
    (handler "g1" ⟨"PUT", some ⟨some "p1"⟩, .fail "Unexpected end of JSON input"⟩
        ⟨[], [], []⟩).1.statusCode = 500 ∧
    (handler "g1" ⟨"PUT", some ⟨some "p1"⟩, .fail "Unexpected end of JSON input"⟩
        ⟨[], [], []⟩).1.body =
      .err "Internal Server Error for Put :: Unexpected end of JSON input" ∧
    (handler "g1" ⟨"POST", none, .fail "Unexpected end of JSON input"⟩
        ⟨[], [], []⟩).1.statusCode = 500 ∧
    (handler "g1" ⟨"POST", none, .fail "Unexpected end of JSON input"⟩
        ⟨[], [], []⟩).1.body =
      .err "Internal Server Error for Post :: Unexpected end of JSON input" ∧
    (handler "g1" ⟨"POST", none, .fail "Unexpected end of JSON input"⟩
        ⟨[], [], []⟩).2.calls = [] := by
  decide

/-- C3 (amended): the decode `JSON.parse(input.body || '') || {}` defaults
the product to the empty object only when the body parses to a falsy JSON
value (such as the literal null) — then the handler continues, reaching the
id-mismatch check for PUT (400 when a path id is present) and the store
write for POST (201 on a healthy store); a raw body that fails to parse as
JSON instead throws, is caught at the handler boundary, and takes the
status-500 fault path for Put and Post, leaving the store untouched. -/
theorem C3_lenient_decode (g : String) (e : Event) (db : DB) :
    (∀ k, e.httpMethod = "PUT" → e.bodyParse = .falsy → pathId e = some k →
      (handler g e db).1.statusCode = 400 ∧
      (handler g e db).1.body =
        .err "Product ID in the body does not match path parameter") ∧
    (e.httpMethod = "POST" → e.bodyParse = .falsy → db.faults = [] →
      (handler g e db).1.statusCode = 201 ∧
      (handler g e db).1.body = .msg ("Product with id = " ++ g ++ " created")) ∧
    (∀ m, e.httpMethod = "PUT" → e.bodyParse = .fail m →
      (handler g e db).1 =
        addResponseHeaders
          { statusCode := 500,
            body := .err ("Internal Server Error for Put :: " ++ m),
            headers := none } ∧
      (handler g e db).2 = db) ∧
    (∀ m, e.httpMethod = "POST" → e.bodyParse = .fail m →
      (handler g e db).1 =
        addResponseHeaders
          { statusCode := 500,
            body := .err ("Internal Server Error for Post :: " ++ m),
            headers := none } ∧
      (handler g e db).2 = db) := by
  refine ⟨fun k h1 h2 h3 => ?_, fun h1 h2 h3 => ?_, fun m h1 h2 => ?_, fun m h1 h2 => ?_⟩
  · constructor <;>
      simp [handler, h1, processPutEvent, processPutEventE, h2, decodeBody, h3,
        finalize, addResponseHeaders]
  · constructor <;>
      simp [handler, h1, processPostEvent, processPostEventE, h2, decodeBody, dbPut,
        recordCall, takeFault, h3, finalize, addResponseHeaders]
  · constructor <;>
      simp [handler, h1, processPutEvent, processPutEventE, h2, decodeBody,
        finalize, addResponseHeaders]
  · constructor <;>
      simp [handler, h1, processPostEvent, processPostEventE, h2, decodeBody,
        finalize, addResponseHeaders]

/-- C3 witness: each clause of the amended decode behaviour at a concrete
request. -/
theorem C3_lenient_decode_witness :
    (handler "g1" ⟨"PUT", some ⟨some "p1"⟩, .falsy⟩ ⟨[], [], []⟩).1.statusCode = 400 ∧
    (handler "g1" ⟨"POST", none, .falsy⟩ ⟨[], [], []⟩).1.body =
      .msg ("Product with id = " ++ "g1" ++ " created") ∧
    (handler "g1" ⟨"PUT", some ⟨some "p1"⟩, .fail "SyntaxError"⟩ ⟨[], [], []⟩).1 =
      addResponseHeaders
        { statusCode := 500,
          body := .err ("Internal Server Error for Put :: " ++ "SyntaxError"),
          headers := none } ∧
    (handler "g1" ⟨"POST", none, .fail "SyntaxError"⟩ ⟨[], [], []⟩).1 =
      addResponseHeaders
        { statusCode := 500,
          body := .err ("Internal Server Error for Post :: " ++ "SyntaxError"),
          headers := none } :=
  ⟨((C3_lenient_decode "g1" ⟨"PUT", some ⟨some "p1"⟩, .falsy⟩ ⟨[], [], []⟩).1
      "p1" rfl rfl rfl).1,
   ((C3_lenient_decode "g1" ⟨"POST", none, .falsy⟩ ⟨[], [], []⟩).2.1 rfl rfl rfl).2,
   ((C3_lenient_decode "g1" ⟨"PUT", some ⟨some "p1"⟩, .fail "SyntaxError"⟩
      ⟨[], [], []⟩).2.2.1 "SyntaxError" rfl rfl).1,
   ((C3_lenient_decode "g1" ⟨"POST", none, .fail "SyntaxError"⟩
      ⟨[], [], []⟩).2.2.2 "SyntaxError" rfl rfl).1⟩

/-- C4: a DELETE whose id is absent from a healthy store answers 404 with the
error text "Product with id = <id> was deleted" — identical to the success
message — and only the existence lookup is issued to the store: no delete
call, and the store contents are unchanged. -/
theorem C4_delete_absent (g : String) (e : Event) (db : DB) (k : String)
    (hm : e.httpMethod = "DELETE") (hp : pathId e = some k)
    (habs : lookupItem k db.items = none) (hf : db.faults = []) :
    (handler g e db).1.statusCode = 404 ∧
    (handler g e db).1.body = .err ("Product with id = " ++ k ++ " was deleted") ∧
    (handler g e db).2.items = db.items ∧
    (handler g e db).2.calls = db.calls ++ [StoreCall.get (some k)] := by
  refine ⟨?_, ?_, ?_, ?_⟩ <;>
    simp [handler, hm, processDeleteEvent, processDeleteEventE, hp, dbGet, recordCall,
      takeFault, hf, habs, finalize, addResponseHeaders, interp]

/-- C4 witness: a concrete DELETE of an absent id on a one-record store. -/
theorem C4_delete_absent_witness :
    (handler "g1" ⟨"DELETE", some ⟨some "p9"⟩, .falsy⟩
        ⟨[("p1", ⟨none, none⟩)], [], [StoreCall.scan]⟩).1.statusCode = 404 ∧
    (handler "g1" ⟨"DELETE", some ⟨some "p9"⟩, .falsy⟩
        ⟨[("p1", ⟨none, none⟩)], [], [StoreCall.scan]⟩).1.body =
      .err ("Product with id = " ++ "p9" ++ " was deleted") ∧
    (handler "g1" ⟨"DELETE", some ⟨some "p9"⟩, .falsy⟩
        ⟨[("p1", ⟨none, none⟩)], [], [StoreCall.scan]⟩).2.items =
      [("p1", ⟨none, none⟩)] ∧
    (handler "g1" ⟨"DELETE", some ⟨some "p9"⟩, .falsy⟩
        ⟨[("p1", ⟨none, none⟩)], [], [StoreCall.scan]⟩).2.calls =
      [StoreCall.scan] ++ [StoreCall.get (some "p9")] :=
  C4_delete_absent "g1" ⟨"DELETE", some ⟨some "p9"⟩, .falsy⟩
    ⟨[("p1", ⟨none, none⟩)], [], [StoreCall.scan]⟩ "p9" rfl rfl (by decide) rfl

/-- C6: a GET with no `pathParameters` object on a healthy store answers 200
with the JSON array of the first 20 stored records exactly as stored — at
most 20 even when the store holds more — and leaves the store contents
unchanged. -/
theorem C6_list_first_page (g : String) (e : Event) (db : DB)
    (hm : e.httpMethod = "GET") (hpp : e.pathParameters = none) (hf : db.faults = []) :
    (handler g e db).1.statusCode = 200 ∧
    (handler g e db).1.body = .items (db.items.take 20) ∧
    (db.items.take 20).length ≤ 20 ∧
    (handler g e db).2.items = db.items := by
  refine ⟨?_, ?_, ?_, ?_⟩
  · simp [handler, hm, hpp, processGetAllEvent, processGetAllEventE, dbScan,
      recordCall, takeFault, hf, finalize, addResponseHeaders]
  · simp [handler, hm, hpp, processGetAllEvent, processGetAllEventE, dbScan,
      recordCall, takeFault, hf, finalize, addResponseHeaders]
  · simp
  · simp [handler, hm, hpp, processGetAllEvent, processGetAllEventE, dbScan,
      recordCall, takeFault, hf, finalize, addResponseHeaders]

/-- C6 witness: on a store of 21 records the list answers 200 with exactly
the first 20. -/
theorem C6_list_first_page_witness :
    (List.replicate 21 (("k", (⟨none, none⟩ : Attrs)))).length = 21 ∧
    ((handler "g1" ⟨"GET", none, .falsy⟩
        ⟨List.replicate 21 ("k", ⟨none, none⟩), [], []⟩).1.statusCode = 200 ∧
     (handler "g1" ⟨"GET", none, .falsy⟩
        ⟨List.replicate 21 ("k", ⟨none, none⟩), [], []⟩).1.body =
       .items ((List.replicate 21 ("k", ⟨none, none⟩)).take 20) ∧
     ((List.replicate 21 (("k", (⟨none, none⟩ : Attrs)))).take 20).length ≤ 20 ∧
     (handler "g1" ⟨"GET", none, .falsy⟩
        ⟨List.replicate 21 ("k", ⟨none, none⟩), [], []⟩).2.items =
       List.replicate 21 ("k", ⟨none, none⟩)) :=
  ⟨by simp,
   C6_list_first_page "g1" ⟨"GET", none, .falsy⟩
     ⟨List.replicate 21 ("k", ⟨none, none⟩), [], []⟩ rfl rfl rfl⟩

/-- C5 witness: the sentinel answers 500 even though the record exists and a
store fault is scheduled, and the store is untouched. -/
theorem C5_force_error_witness :
    (handler "g1" ⟨"GET", some ⟨some "ForceError"⟩, .falsy⟩
        ⟨[("ForceError", ⟨some "n", some 1⟩)], [some "down"], []⟩).1 =
      addResponseHeaders
        { statusCode := 500,
          body := .err "Internal Server Error for GetById :: BOOM",
          headers := none } ∧
    (handler "g1" ⟨"GET", some ⟨some "ForceError"⟩, .falsy⟩
        ⟨[("ForceError", ⟨some "n", some 1⟩)], [some "down"], []⟩).2 =
      ⟨[("ForceError", ⟨some "n", some 1⟩)], [some "down"], []⟩ :=
  C5_force_error "g1" ⟨"GET", some ⟨some "ForceError"⟩, .falsy⟩
    ⟨[("ForceError", ⟨some "n", some 1⟩)], [some "down"], []⟩ rfl rfl

/-- C7: every response returned by the dispatcher — the generic 500 fallback
and every handler branch alike — carries exactly the two fixed headers
Content-Type: application/json and X-Custom-Header: application/json, and
the finalization step overwrites whatever headers object the response
carried before; being a total function, it has no failure mode. -/
theorem C7_fixed_headers (g : String) (e : Event) (db : DB) :
    (handler g e db).1.headers =
      some [("Content-Type", "application/json"),
            ("X-Custom-Header", "application/json")] ∧
    ∀ r, (addResponseHeaders r).headers =
      some [("Content-Type", "application/json"),
            ("X-Custom-Header", "application/json")] := by
  constructor
  · unfold handler
    split_ifs
    · rfl
    · rfl
    · cases e.pathParameters <;> rfl
    · rfl
    · rfl
  · intro r
    rfl

/-- C8 counterexample: a PUT on the sentinel id "ForceError" with matching
body id succeeds with 201 and writes the record, yet the subsequent GetById
on that id answers 500, not 200. -/
theorem C8_roundtrip_counterexample :
    (handler "g1"
        ⟨"PUT", some ⟨some "ForceError"⟩, .obj ⟨some "ForceError", some "n", some 5⟩⟩
        ⟨[], [], []⟩).1.statusCode = 201 ∧
    (handler "g2" ⟨"GET", some ⟨some "ForceError"⟩, .falsy⟩
        (handler "g1"
          ⟨"PUT", some ⟨some "ForceError"⟩, .obj ⟨some "ForceError", some "n", some 5⟩⟩
          ⟨[], [], []⟩).2).1.statusCode = 500 := by
  decide

/-- C8 (amended): for every PUT whose body id equals the path id, provided
the id is not the fault-injection sentinel "ForceError", on a healthy store
the write succeeds with 201 and a subsequent GetById on that id answers 200
with a body holding exactly the fields the PUT wrote: the key plus the
body's name and price (full-replace semantics). -/
theorem C8_roundtrip (g g2 : String) (e e2 : Event) (db : DB) (p : Product) (k : String)
    (hm : e.httpMethod = "PUT") (hb : decodeBody e.bodyParse = .ok p)
    (hpid : pathId e = some k) (hbid : p.id = some k) (hk : k ≠ "ForceError")
    (hf : db.faults = [])
    (hm2 : e2.httpMethod = "GET") (hp2 : pathId e2 = some k) :
    (handler g e db).1.statusCode = 201 ∧
    (handler g2 e2 (handler g e db).2).1.statusCode = 200 ∧
    (handler g2 e2 (handler g e db).2).1.body =
      .record k { name := p.name, price := p.price } := by
  obtain ⟨pp2, hpp2⟩ : ∃ pp2, e2.pathParameters = some pp2 := by
    cases hc : e2.pathParameters
    · rw [pathId, hc] at hp2; simp at hp2
    · exact ⟨_, rfl⟩
  refine ⟨?_, ?_, ?_⟩ <;>
    simp [handler, hm, hm2, hpp2, processPutEvent, processPutEventE, hb, hbid, hpid,
      dbPut, recordCall, takeFault, hf, finalize, processGetByIdEvent,
      processGetByIdEventE, hp2, hk, dbGet, lookupItem_putItem_self,
      addResponseHeaders, interp]

/-- C8 witness: a concrete matching PUT followed by a GetById on the same id
returns the written record. -/
theorem C8_roundtrip_witness :
    (handler "g1" ⟨"PUT", some ⟨some "k1"⟩, .obj ⟨some "k1", some "nm", some 7⟩⟩
        ⟨[], [], []⟩).1.statusCode = 201 ∧
    (handler "g2" ⟨"GET", some ⟨some "k1"⟩, .falsy⟩
        (handler "g1" ⟨"PUT", some ⟨some "k1"⟩, .obj ⟨some "k1", some "nm", some 7⟩⟩
          ⟨[], [], []⟩).2).1.statusCode = 200 ∧
    (handler "g2" ⟨"GET", some ⟨some "k1"⟩, .falsy⟩
        (handler "g1" ⟨"PUT", some ⟨some "k1"⟩, .obj ⟨some "k1", some "nm", some 7⟩⟩
          ⟨[], [], []⟩).2).1.body =
      .record "k1" { name := some "nm", price := some 7 } :=
  C8_roundtrip "g1" "g2" ⟨"PUT", some ⟨some "k1"⟩, .obj ⟨some "k1", some "nm", some 7⟩⟩
    ⟨"GET", some ⟨some "k1"⟩, .falsy⟩ ⟨[], [], []⟩ ⟨some "k1", some "nm", some 7⟩ "k1"
    rfl rfl rfl rfl (by decide) rfl rfl rfl

/-- C9: the dispatcher is a total function to structured responses — every
status code it returns is one of 200, 201, 400, 404, 500 — and every fault
raised inside an operation handler (store fault, decode fault, or the
injected fault) is caught at that handler's own boundary and converted into
the status-500 response tagged with the operation name and the fault
message, so no fault propagates out of a handler uncaught. -/
theorem C9_faults_caught (g : String) (e : Event) (db : DB) :
    ((handler g e db).1.statusCode = 200 ∨ (handler g e db).1.statusCode = 201 ∨
     (handler g e db).1.statusCode = 400 ∨ (handler g e db).1.statusCode = 404 ∨
     (handler g e db).1.statusCode = 500) ∧
    (∀ m db2, processPutEventE e db = (.error m, db2) →
      processPutEvent e db =
        ({ statusCode := 500,
           body := .err ("Internal Server Error for Put :: " ++ m),
           headers := none }, db2)) ∧
    (∀ m db2, processPostEventE g e db = (.error m, db2) →
      processPostEvent g e db =
        ({ statusCode := 500,
           body := .err ("Internal Server Error for Post :: " ++ m),
           headers := none }, db2)) ∧
    (∀ m db2, processGetAllEventE db = (.error m, db2) →
      processGetAllEvent db =
        ({ statusCode := 500,
           body := .err ("Internal Server Error for GetAll :: " ++ m),
           headers := none }, db2)) ∧
    (∀ m db2, processGetByIdEventE e db = (.error m, db2) →
      processGetByIdEvent e db =
        ({ statusCode := 500,
           body := .err ("Internal Server Error for GetById :: " ++ m),
           headers := none }, db2)) ∧
    (∀ m db2, processDeleteEventE e db = (.error m, db2) →
      processDeleteEvent e db =
        ({ statusCode := 500,
           body := .err ("Internal Server Error for Delete :: " ++ m),
           headers := none }, db2)) := by
  refine ⟨?_, fun m db2 h => by simp [processPutEvent, h],
    fun m db2 h => by simp [processPostEvent, h],
    fun m db2 h => by simp [processGetAllEvent, h],
    fun m db2 h => by simp [processGetByIdEvent, h],
    fun m db2 h => by simp [processDeleteEvent, h]⟩
  unfold handler
  split_ifs
  · simp only [finalize_statusCode]
    rcases processPutEvent_status e db with h | h | h <;> simp [h]
  · simp only [finalize_statusCode]
    rcases processPostEvent_status g e db with h | h <;> simp [h]
  · cases e.pathParameters with
    | none =>
      simp only [finalize_statusCode]
      rcases processGetAllEvent_status db with h | h <;> simp [h]
    | some pp =>
      simp only [finalize_statusCode]
      rcases processGetByIdEvent_status e db with h | h | h <;> simp [h]
  · simp only [finalize_statusCode]
    rcases processDeleteEvent_status e db with h | h | h <;> simp [h]
  · simp [finalize, addResponseHeaders]

/-- C9 witness: the injected fault of the sentinel GetById is caught at the
handler boundary and converted into the tagged 500 response. -/
theorem C9_faults_caught_witness :
    ((handler "g1" ⟨"GET", some ⟨some "ForceError"⟩, .falsy⟩ ⟨[], [], []⟩).1.statusCode = 200 ∨
     (handler "g1" ⟨"GET", some ⟨some "ForceError"⟩, .falsy⟩ ⟨[], [], []⟩).1.statusCode = 201 ∨
     (handler "g1" ⟨"GET", some ⟨some "ForceError"⟩, .falsy⟩ ⟨[], [], []⟩).1.statusCode = 400 ∨
     (handler "g1" ⟨"GET", some ⟨some "ForceError"⟩, .falsy⟩ ⟨[], [], []⟩).1.statusCode = 404 ∨
     (handler "g1" ⟨"GET", some ⟨some "ForceError"⟩, .falsy⟩ ⟨[], [], []⟩).1.statusCode = 500) ∧
    processGetByIdEvent ⟨"GET", some ⟨some "ForceError"⟩, .falsy⟩ ⟨[], [], []⟩ =
      ({ statusCode := 500,
         body := .err ("Internal Server Error for GetById :: " ++ "BOOM"),
         headers := none }, ⟨[], [], []⟩) :=
  ⟨(C9_faults_caught "g1" ⟨"GET", some ⟨some "ForceError"⟩, .falsy⟩ ⟨[], [], []⟩).1,
   (C9_faults_caught "g1" ⟨"GET", some ⟨some "ForceError"⟩, .falsy⟩
      ⟨[], [], []⟩).2.2.2.2.1 "BOOM" ⟨[], [], []⟩ rfl⟩

/-- C10: the plain handler (src/products/app.ts) and the Powertools/middy
instrumented handler (src/unnamed/part_001) return the identical response —
status code, body and headers — and the identical store state, for every
generated id, request and store state; the instrumentation is side-channel
logging, metrics and tracing only, modelled per the spec as never altering
control flow or response content. -/
theorem C10_instrumented_equiv (g : String) (e : Event) (db : DB) :
    Instrumented.handler g e db = handler g e db := rfl

end Products
